import Mathlib

/-!
Verification of the NotebookAI database lifecycle scripts
(`scripts/setup-supabase.py`, `scripts/setup-supabase-sql.py`,
`scripts/cleanup-supabase.py`) against their specification.

The scripts issue a fixed sequence of SQL statements against a PostgreSQL
database.  We shallowly embed the database as a state (extensions, tables,
indexes, and rows per table) and the scripts as pure functions over that
state together with explicit records of their observable behaviour
(statements executed, connection opened/closed, exit code, output lines).
-/

namespace NotebookAI

/-- A table row: its primary-key value and the remaining column values.
Column values are kept abstract as strings; only the primary key matters
for the conflict-skip semantics of the seed inserts. -/
structure Row where
  key : String
  vals : List String
deriving DecidableEq, Repr

/-- A database state: the installed extensions, the tables and indexes of
schema `public`, and the rows of each table (the row function is
meaningful only at names in `tables`; `createTable` initialises a fresh
table to the empty row list). -/
structure DBState where
  extensions : List String
  tables : List String
  indexes : List String
  rows : String → List Row

/-- The primary-key values present in table `t`. -/
def tableKeys (s : DBState) (t : String) : List String :=
  (s.rows t).map Row.key

/-- The statement forms occurring in `SCHEMA_SQL`:
`CREATE EXTENSION IF NOT EXISTS`, `CREATE TABLE IF NOT EXISTS` (with the
list of parent tables named in its `REFERENCES ... ON DELETE CASCADE`
clauses), `CREATE INDEX IF NOT EXISTS`, and
`INSERT ... VALUES (key, vals) ON CONFLICT (id) DO NOTHING`. -/
inductive Stmt where
  | createExtension (name : String)
  | createTable (name : String) (fkParents : List String)
  | createIndex (name : String) (table : String)
  | insertOnConflict (table : String) (key : String) (vals : List String)
deriving DecidableEq, Repr

/-- Whether a statement is one of the seed inserts. -/
def Stmt.isInsert : Stmt → Bool
  | .insertOnConflict _ _ _ => true
  | _ => false

/-- Execute one schema statement.  The `IF NOT EXISTS` guards make the
create statements total no-ops when the object already exists; an insert
fails when its target table does not exist, and otherwise skips the row
when the primary key is already present (`ON CONFLICT (id) DO NOTHING`). -/
def execStmt : Stmt → DBState → Except String DBState
  | .createExtension n, s =>
      .ok (if n ∈ s.extensions then s else { s with extensions := n :: s.extensions })
  | .createTable n _, s =>
      .ok (if n ∈ s.tables then s
           else { s with tables := n :: s.tables,
                          rows := fun u => if u = n then [] else s.rows u })
  | .createIndex n _, s =>
      .ok (if n ∈ s.indexes then s else { s with indexes := n :: s.indexes })
  | .insertOnConflict t k v, s =>
      if t ∈ s.tables then
        .ok (if k ∈ tableKeys s t then s
             else { s with rows := fun u => if u = t then s.rows t ++ [⟨k, v⟩] else s.rows u })
      else .error ("relation does not exist: " ++ t)

/-- Execute a list of statements in order, aborting at the first error
(the whole `SCHEMA_SQL` string is sent as one `cursor.execute` call). -/
def runStmts : List Stmt → DBState → Except String DBState
  | [], s => .ok s
  | st :: l, s =>
      match execStmt st s with
      | .ok s' => runStmts l s'
      | .error e => .error e

/-- The statements of `SCHEMA_SQL`, in source order (the literal is
byte-identical in `setup-supabase.py` and `setup-supabase-sql.py`):
one extension, seven tables with their foreign-key parents, seven
indexes, three conflict-skipped seed inserts. -/
def SCHEMA_STMTS : List Stmt :=
  [ .createExtension "vector",
    .createTable "users" [],
    .createTable "notebooks" ["users"],
    .createTable "documents" ["notebooks"],
    .createTable "document_vectors" ["documents"],
    .createTable "chat_history" ["notebooks"],
    .createTable "notes" ["notebooks"],
    .createTable "sessions" [],
    .createIndex "idx_notebooks_user_id" "notebooks",
    .createIndex "idx_documents_notebook_id" "documents",
    .createIndex "idx_document_vectors_document_id" "document_vectors",
    .createIndex "idx_chat_history_notebook_id" "chat_history",
    .createIndex "idx_notes_notebook_id" "notes",
    .createIndex "idx_sessions_expire" "sessions",
    .createIndex "idx_document_vectors_embedding" "document_vectors",
    .insertOnConflict "users" "default-user" ["demo@notebookai.com", "Demo User"],
    .insertOnConflict "notebooks" "sample-notebook-1"
      ["Sample Research Notebook",
       "A demo notebook for testing NotebookAI functionality", "default-user"],
    .insertOnConflict "notes" "sample-note-1"
      ["Welcome to NotebookAI",
       "This is a sample note to get you started. Upload documents and start asking questions!",
       "sample-notebook-1", "manual"] ]

/-- The child-to-parent foreign-key edges declared by the provisioning
schema, read off the `REFERENCES` clauses of its `CREATE TABLE`
statements. -/
def fkEdges : List (String × String) :=
  SCHEMA_STMTS.foldr
    (fun st acc =>
      match st with
      | .createTable n fks => fks.map (fun p => (n, p)) ++ acc
      | _ => acc) []

/-! ## Interactive input helpers (`get_user_input`, `get_confirmation`) -/

/-- Python `str.strip()`: every interactive input is stripped of
surrounding whitespace by `get_user_input`. -/
def pyStrip (s : String) : String :=
  ⟨((s.toList.dropWhile Char.isWhitespace).reverse.dropWhile Char.isWhitespace).reverse⟩

/-- Python `str.lower()` (ASCII case folding suffices for the inputs the
scripts compare). -/
def pyLower (s : String) : String := ⟨s.toList.map Char.toLower⟩

/-- `get_confirmation`: read responses until one is
`yes`/`y` (true) or `no`/`n` (false), case-insensitively; other answers
re-prompt.  `none` models a response stream that never answers validly
(the script would keep prompting forever). -/
def getConfirmation : List String → Option Bool
  | [] => none
  | r :: rest =>
      let resp := pyLower (pyStrip r)
      if resp = "yes" ∨ resp = "y" then some true
      else if resp = "no" ∨ resp = "n" then some false
      else getConfirmation rest

/-! ## Connection resolution (shared by `setup-supabase-sql.py` and
`cleanup-supabase.py`, lines 141-164 resp. 76-99) -/

/-- The value handed to `psycopg2.connect`: either the full
`DATABASE_URL` string as entered, or the five individual components. -/
inductive ConnParams where
  | url (s : String)
  | components (host port database user password : String)
deriving DecidableEq, Repr

/-- Outcome of collecting connection parameters: the parameters (or
`none` for the empty-password validation failure, which exits 1 before
any connection attempt) and how many prompts were issued (1 for the
`DATABASE_URL` prompt alone, 6 when the five components are also
prompted). -/
structure ConnResolution where
  params : Option ConnParams
  promptCount : Nat
deriving DecidableEq, Repr

/-- Resolve connection parameters exactly as both direct-SQL scripts do:
a non-empty `DATABASE_URL` is used as-is and no component prompt occurs;
otherwise each empty component falls back to its default via Python
`or` (port `5432`, database `postgres`, user `postgres`), while an empty
password is a fatal validation error. -/
def resolveConn (databaseUrl host port database user password : String) :
    ConnResolution :=
  if pyStrip databaseUrl ≠ "" then ⟨some (.url (pyStrip databaseUrl)), 1⟩
  else
    let h := pyStrip host
    let p := if pyStrip port = "" then "5432" else pyStrip port
    let d := if pyStrip database = "" then "postgres" else pyStrip database
    let u := if pyStrip user = "" then "postgres" else pyStrip user
    let pw := pyStrip password
    if pw = "" then ⟨none, 6⟩
    else ⟨some (.components h p d u pw), 6⟩

/-! ## The purge script (`cleanup-supabase.py`) -/

/-- `CLEANUP_QUERIES`, verbatim and in source order. -/
def CLEANUP_QUERIES : List String :=
  [ "DELETE FROM chat_history;",
    "DELETE FROM notes;",
    "DELETE FROM document_vectors;",
    "DELETE FROM documents;",
    "DELETE FROM notebooks;",
    "DELETE FROM sessions;" ]

/-- The six table names of the `table_name IN (...)` filter in the
`information_schema.tables` query (cleanup-supabase.py line 113). -/
def targetTables : List String :=
  ["chat_history", "notes", "document_vectors", "documents", "notebooks", "sessions"]

/-- Helper for Python `str.split()`: cut a character list into maximal
runs of non-whitespace characters (`acc` holds the current word,
reversed). -/
def splitWords : List Char → List Char → List String
  | [], acc => if acc = [] then [] else [⟨acc.reverse⟩]
  | c :: cs, acc =>
      if c.isWhitespace then
        if acc = [] then splitWords cs [] else ⟨acc.reverse⟩ :: splitWords cs []
      else splitWords cs (c :: acc)

/-- Python `str.split()` with no argument: split on whitespace runs,
dropping empty pieces. -/
def pySplit (s : String) : List String := splitWords s.toList []

/-- Python `str.rstrip(";")`: drop trailing semicolons. -/
def pyRstripSemi (s : String) : String :=
  ⟨(s.toList.reverse.dropWhile (fun c => c = ';')).reverse⟩

/-- `query.split()[2].rstrip(";")` — the table a delete query targets. -/
def tableOfQuery (q : String) : String :=
  pyRstripSemi ((pySplit q).getD 2 "")

/-- The deletion order of the purge, read off `CLEANUP_QUERIES` the same
way the script's loop does. -/
def cleanupOrder : List String := CLEANUP_QUERIES.map tableOfQuery

/-- The result of the `information_schema.tables` query: the live tables
among the six targets.  (The SQL sorts the names; our claims only use
membership, so we keep the order of the schema list.) -/
def existingTables (tables : List String) : List String :=
  tables.filter (fun t => t ∈ targetTables)

/-- The SQL statements the purge script can send, by kind and target. -/
inductive SqlOp where
  | infoSchemaTables
  | countRows (table : String)
  | deleteRows (table : String)
deriving DecidableEq, Repr

/-- `DELETE FROM t` in the row model: the table keeps existing, its rows
are all removed. -/
def deleteAllRows (t : String) (s : DBState) : DBState :=
  { s with rows := fun u => if u = t then [] else s.rows u }

/-- The purge loop (cleanup-supabase.py lines 145-152): for each query,
parse out its table, and execute it only when the table is in
`existing`.  Returns the final state and the delete statements
executed, in order. -/
def runCleanupLoop (existing : List String) :
    List String → DBState → DBState × List SqlOp
  | [], s => (s, [])
  | q :: qs, s =>
      let t := tableOfQuery q
      if t ∈ existing then
        let r := runCleanupLoop existing qs (deleteAllRows t s)
        (r.1, SqlOp.deleteRows t :: r.2)
      else runCleanupLoop existing qs s

/-- Observable outcome of a purge run: exit code, the SQL statements
sent, whether a connection was opened and closed, and the final
database state. -/
structure CleanupResult where
  exitCode : Nat
  sqlExecuted : List SqlOp
  connected : Bool
  connectionClosed : Bool
  finalDB : DBState

/-- `cleanup-supabase.py main()`: confirmation first ("no" exits 0
before any prompt for credentials, connection or SQL), then connection
resolution (empty password exits 1 before connecting), then the
information-schema probe; when no target table exists the connection is closed
and the script returns normally, otherwise row counts are taken, the
delete loop runs, counts are re-taken and the script ends normally
(exit 0).  A never-answered confirmation is `none`; the connection
itself is assumed to succeed (connection failures are out of scope of
the modelled claims). -/
def cleanupMain (answers : List String)
    (databaseUrl host port database user password : String)
    (db : DBState) : Option CleanupResult :=
  match getConfirmation answers with
  | none => none
  | some false =>
      some { exitCode := 0, sqlExecuted := [], connected := false,
             connectionClosed := false, finalDB := db }
  | some true =>
      match (resolveConn databaseUrl host port database user password).params with
      | none =>
          some { exitCode := 1, sqlExecuted := [], connected := false,
                 connectionClosed := false, finalDB := db }
      | some _ =>
          let existing := existingTables db.tables
          if existing = [] then
            some { exitCode := 0, sqlExecuted := [SqlOp.infoSchemaTables],
                   connected := true, connectionClosed := true, finalDB := db }
          else
            let r := runCleanupLoop existing CLEANUP_QUERIES db
            some { exitCode := 0,
                   sqlExecuted :=
                     SqlOp.infoSchemaTables ::
                       (existing.map SqlOp.countRows ++ [SqlOp.countRows "users"] ++
                        r.2 ++ existing.map SqlOp.countRows),
                   connected := true, connectionClosed := true, finalDB := r.1 }

/-! ## The REST-based setup script (`setup-supabase.py`) -/

/-- Project-reference extraction,
`re.match(r"https://([^.]+)\.supabase\.co", supabase_url)`: the string
must begin with `https://`, followed by a non-empty dot-free segment
(the captured project reference), followed by `.supabase.co`.
`re.match` anchors only at the start, so trailing text after
`.supabase.co` is accepted and ignored. -/
def extractProjectRef (u : String) : Option String :=
  if u.toList.take 8 = "https://".toList then
    if (u.toList.drop 8).takeWhile (fun c => c ≠ '.') = [] then none
    else if ((u.toList.drop 8).drop
        ((u.toList.drop 8).takeWhile (fun c => c ≠ '.')).length).take 12 =
        ".supabase.co".toList then
      some ⟨(u.toList.drop 8).takeWhile (fun c => c ≠ '.')⟩
    else none
  else none

/-- The single HTTPS POST the REST setup script sends: target URL,
`Authorization: Bearer` token, `apikey` header, and the schema script as
body (`{"sql": SCHEMA_SQL}`, represented by its statement list). -/
structure HTTPRequest where
  url : String
  bearerToken : String
  apikey : String
  sqlBody : List Stmt
deriving DecidableEq, Repr

/-- Observable outcome of a REST setup run: exit code, the request sent
(if any), and the lines printed about schema execution (lines containing
quote characters are elided; they carry no decision content). -/
structure SetupResult where
  exitCode : Nat
  request : Option HTTPRequest
  output : List String
deriving DecidableEq, Repr

/-- `setup-supabase.py main()`: prompt for four values, require
`SUPABASE_URL` and the service key to be non-empty, extract the project
reference (exit 1 on failure, before any HTTP), send the schema to
`https://<ref>.supabase.co/rest/v1/rpc/exec_sql`, and treat HTTP 200/204
as success (exit 0) and anything else as fatal, printing the response
body verbatim and exiting 1.  `respond` models the server: status code
and response body text.  `anonKey` and `databaseUrl` are prompted for
but never used afterwards. -/
def setupMain (supabaseUrl serviceKey anonKey databaseUrl : String)
    (respond : HTTPRequest → Nat × String) : SetupResult :=
  let su := pyStrip supabaseUrl
  let sk := pyStrip serviceKey
  if su = "" ∨ sk = "" then
    { exitCode := 1, request := none,
      output := ["Error: SUPABASE_URL and SUPABASE_SERVICE_ROLE_KEY are required"] }
  else
    match extractProjectRef su with
    | none =>
        { exitCode := 1, request := none,
          output := ["Error: Invalid SUPABASE_URL format"] }
    | some ref =>
        let req : HTTPRequest :=
          { url := "https://" ++ ref ++ ".supabase.co/rest/v1/rpc/exec_sql",
            bearerToken := "Bearer " ++ sk, apikey := sk, sqlBody := SCHEMA_STMTS }
        let resp := respond req
        if resp.1 = 200 ∨ resp.1 = 204 then
          { exitCode := 0, request := some req,
            output := ["Executing database schema...",
                       "✅ Database schema created successfully!",
                       "✅ Sample data inserted!"] }
        else
          { exitCode := 1, request := some req,
            output := ["Executing database schema...",
                       "Error: HTTP " ++ toString resp.1,
                       "Response: " ++ resp.2] }

/-! ## The direct-SQL setup script (`setup-supabase-sql.py`) -/

/-- Observable outcome of a direct-SQL setup run. -/
structure SqlSetupResult where
  exitCode : Nat
  connected : Bool
  promptCount : Nat
  finalDB : DBState

/-- `setup-supabase-sql.py main()`: resolve the connection (empty
password exits 1 before connecting), connect, execute `SCHEMA_SQL` in a
single `cursor.execute` (an error leaves the state unchanged, the whole
multi-statement string being one implicit transaction), verify and
close. -/
def setupSqlMain (databaseUrl host port database user password : String)
    (db : DBState) : SqlSetupResult :=
  let r := resolveConn databaseUrl host port database user password
  match r.params with
  | none =>
      { exitCode := 1, connected := false, promptCount := r.promptCount, finalDB := db }
  | some _ =>
      match runStmts SCHEMA_STMTS db with
      | .ok db2 =>
          { exitCode := 0, connected := true, promptCount := r.promptCount, finalDB := db2 }
      | .error _ =>
          { exitCode := 1, connected := true, promptCount := r.promptCount, finalDB := db }

/-! ## Example database states (used to instantiate the theorems) -/

/-- A state with only the `users` table. -/
def dbUsersOnly : DBState :=
  { extensions := [], tables := ["users"], indexes := [], rows := fun _ => [] }

/-- A provisioned-like state: all seven tables, one row everywhere. -/
def dbSeven : DBState :=
  { extensions := ["vector"],
    tables := ["chat_history", "notes", "document_vectors", "documents",
               "notebooks", "sessions", "users"],
    indexes := [],
    rows := fun _ => [⟨"k0", []⟩] }

/-- What one schema statement establishes once it has run: the object it
creates exists, resp. the row it inserts is present in its (existing)
table. -/
def established : Stmt → DBState → Prop
  | .createExtension n, s => n ∈ s.extensions
  | .createTable n _, s => n ∈ s.tables
  | .createIndex n _, s => n ∈ s.indexes
  | .insertOnConflict t k _, s => t ∈ s.tables ∧ k ∈ tableKeys s t

/-- Growth order on database states: extensions, tables and indexes only
gain members, and rows of existing tables are never removed. -/
def dbLe (s s' : DBState) : Prop :=
  (∀ n, n ∈ s.extensions → n ∈ s'.extensions) ∧
  (∀ n, n ∈ s.tables → n ∈ s'.tables) ∧
  (∀ n, n ∈ s.indexes → n ∈ s'.indexes) ∧
  (∀ t k, t ∈ s.tables → k ∈ tableKeys s t → k ∈ tableKeys s' t)

theorem dbLe_refl (s : DBState) : dbLe s s :=
  ⟨fun _ h => h, fun _ h => h, fun _ h => h, fun _ _ _ h => h⟩

theorem dbLe_trans {s1 s2 s3 : DBState} (h1 : dbLe s1 s2) (h2 : dbLe s2 s3) :
    dbLe s1 s3 :=
  ⟨fun n h => h2.1 n (h1.1 n h),
   fun n h => h2.2.1 n (h1.2.1 n h),
   fun n h => h2.2.2.1 n (h1.2.2.1 n h),
   fun t k ht hk => h2.2.2.2 t k (h1.2.1 t ht) (h1.2.2.2 t k ht hk)⟩

/-- A successful statement only grows the state and establishes its own
fact. -/
theorem execStmt_ok {st : Stmt} {s s' : DBState} (h : execStmt st s = .ok s') :
    dbLe s s' ∧ established st s' := by
  cases st with
  | createExtension n =>
      simp only [execStmt, Except.ok.injEq] at h
      subst h
      by_cases hn : n ∈ s.extensions
      · simp only [if_pos hn]
        exact ⟨dbLe_refl s, hn⟩
      · simp only [if_neg hn]
        exact ⟨⟨fun m hm => List.mem_cons_of_mem _ hm, fun _ h => h, fun _ h => h,
                 fun _ _ _ h => h⟩, List.mem_cons_self _ _⟩
  | createTable n fks =>
      simp only [execStmt, Except.ok.injEq] at h
      subst h
      by_cases hn : n ∈ s.tables
      · simp only [if_pos hn]
        exact ⟨dbLe_refl s, hn⟩
      · simp only [if_neg hn]
        refine ⟨⟨fun _ h => h, fun m hm => List.mem_cons_of_mem _ hm, fun _ h => h,
                  fun t k ht hk => ?_⟩, List.mem_cons_self _ _⟩
        have htn : t ≠ n := fun he => hn (he ▸ ht)
        simpa [tableKeys, htn] using hk
  | createIndex n tb =>
      simp only [execStmt, Except.ok.injEq] at h
      subst h
      by_cases hn : n ∈ s.indexes
      · simp only [if_pos hn]
        exact ⟨dbLe_refl s, hn⟩
      · simp only [if_neg hn]
        exact ⟨⟨fun _ h => h, fun _ h => h, fun m hm => List.mem_cons_of_mem _ hm,
                 fun _ _ _ h => h⟩, List.mem_cons_self _ _⟩
  | insertOnConflict t k v =>
      simp only [execStmt] at h
      by_cases ht : t ∈ s.tables
      · rw [if_pos ht] at h
        simp only [Except.ok.injEq] at h
        subst h
        by_cases hk : k ∈ tableKeys s t
        · simp only [if_pos hk]
          exact ⟨dbLe_refl s, ht, hk⟩
        · simp only [if_neg hk]
          refine ⟨⟨fun _ h => h, fun _ h => h, fun _ h => h, fun u m hu hm => ?_⟩,
                  ht, ?_⟩
          · by_cases hut : u = t
            · subst hut
              simp only [tableKeys] at hm ⊢
              simpa using Or.inl hm
            · simpa [tableKeys, hut] using hm
          · simp [tableKeys]
      · rw [if_neg ht] at h
        exact absurd h (by simp)

/-- Established facts persist under growth. -/
theorem established_mono {st : Stmt} {s s' : DBState}
    (h : established st s) (hle : dbLe s s') : established st s' := by
  cases st with
  | createExtension n => exact hle.1 n h
  | createTable n fks => exact hle.2.1 n h
  | createIndex n tb => exact hle.2.2.1 n h
  | insertOnConflict t k v => exact ⟨hle.2.1 t h.1, hle.2.2.2 t k h.1 h.2⟩

/-- A statement whose fact is already established is a no-op: the `IF NOT
EXISTS` / `ON CONFLICT DO NOTHING` guards fire. -/
theorem execStmt_stable {st : Stmt} {s : DBState} (h : established st s) :
    execStmt st s = .ok s := by
  cases st with
  | createExtension n => simp [execStmt, established] at h ⊢; simp [h]
  | createTable n fks => simp [execStmt, established] at h ⊢; simp [h]
  | createIndex n tb => simp [execStmt, established] at h ⊢; simp [h]
  | insertOnConflict t k v =>
      obtain ⟨ht, hk⟩ := h
      simp [execStmt, ht, hk]

/-- A successful run only grows the state and establishes every
statement of the list. -/
theorem runStmts_ok {l : List Stmt} {s s' : DBState}
    (h : runStmts l s = .ok s') : dbLe s s' ∧ ∀ st ∈ l, established st s' := by
  induction l generalizing s with
  | nil =>
      simp only [runStmts, Except.ok.injEq] at h
      subst h
      exact ⟨dbLe_refl s, by simp⟩
  | cons st l ih =>
      simp only [runStmts] at h
      cases hst : execStmt st s with
      | error e => rw [hst] at h; exact absurd h (by simp)
      | ok s1 =>
          rw [hst] at h
          obtain ⟨hle1, hest1⟩ := execStmt_ok hst
          obtain ⟨hle2, hest2⟩ := ih h
          refine ⟨dbLe_trans hle1 hle2, fun st2 hmem => ?_⟩
          rcases List.mem_cons.mp hmem with he | hm
          · exact he ▸ established_mono hest1 hle2
          · exact hest2 st2 hm

/-- Running a list whose facts are all established already is the
identity and raises no error. -/
theorem runStmts_stable {l : List Stmt} {s : DBState}
    (h : ∀ st ∈ l, established st s) : runStmts l s = .ok s := by
  induction l with
  | nil => rfl
  | cons st l ih =>
      simp only [runStmts, execStmt_stable (h st (List.mem_cons_self _ _))]
      exact ih fun st2 hm => h st2 (List.mem_cons_of_mem _ hm)

/-- Sequential composition of `runStmts`. -/
theorem runStmts_append (l₁ l₂ : List Stmt) (s : DBState) :
    runStmts (l₁ ++ l₂) s =
      match runStmts l₁ s with
      | .ok s1 => runStmts l₂ s1
      | .error e => .error e := by
  induction l₁ generalizing s with
  | nil => rfl
  | cons st l ih =>
      simp only [List.cons_append, runStmts]
      cases hst : execStmt st s with
      | error e => rfl
      | ok s1 => exact ih s1

/-- The create statements (everything except the seed inserts) never
fail. -/
theorem creates_total {l : List Stmt} (h : ∀ st ∈ l, st.isInsert = false)
    (s : DBState) : ∃ s', runStmts l s = .ok s' := by
  induction l generalizing s with
  | nil => exact ⟨s, rfl⟩
  | cons st l ih =>
      have hst : ∃ s1, execStmt st s = .ok s1 := by
        cases st with
        | createExtension n => exact ⟨_, rfl⟩
        | createTable n fks => exact ⟨_, rfl⟩
        | createIndex n tb => exact ⟨_, rfl⟩
        | insertOnConflict t k v =>
            exact absurd (h _ (List.mem_cons_self _ _)) (by simp [Stmt.isInsert])
      obtain ⟨s1, hs1⟩ := hst
      obtain ⟨s', hs'⟩ := ih (fun st2 hm => h st2 (List.mem_cons_of_mem _ hm)) s1
      exact ⟨s', by simp only [runStmts, hs1, hs']⟩

/-- A seed insert succeeds whenever its table exists. -/
theorem insert_ok {t : String} {s : DBState} (ht : t ∈ s.tables)
    (k : String) (v : List String) :
    ∃ s', execStmt (.insertOnConflict t k v) s = .ok s' := by
  simp only [execStmt, if_pos ht]
  exact ⟨_, rfl⟩

/-! ## Purge-loop lemmas -/

/-- An emptied table stays empty through the rest of the loop. -/
theorem runCleanupLoop_rows_empty_preserved (ex : List String) (t : String) :
    ∀ (qs : List String) (s : DBState), s.rows t = [] →
      ((runCleanupLoop ex qs s).1).rows t = [] := by
  intro qs
  induction qs with
  | nil => intro s h; exact h
  | cons q qs ih =>
      intro s h
      simp only [runCleanupLoop]
      by_cases hq : tableOfQuery q ∈ ex
      · simp only [if_pos hq]
        exact ih _ (by simp [deleteAllRows, h])
      · simp only [if_neg hq]
        exact ih _ h

/-- A target table that is live and named by some remaining query ends
the loop empty. -/
theorem runCleanupLoop_rows_eq_nil {t : String} {ex : List String} (hex : t ∈ ex) :
    ∀ (qs : List String) (s : DBState), t ∈ qs.map tableOfQuery →
      ((runCleanupLoop ex qs s).1).rows t = [] := by
  intro qs
  induction qs with
  | nil => intro s h; simp at h
  | cons q qs ih =>
      intro s h
      simp only [runCleanupLoop]
      by_cases he : tableOfQuery q = t
      · subst he
        simp only [if_pos hex]
        exact runCleanupLoop_rows_empty_preserved ex _ qs _ (by simp [deleteAllRows])
      · have hm : t ∈ qs.map tableOfQuery := by
          rcases List.mem_map.mp h with ⟨q2, hq2, he2⟩
          rcases List.mem_cons.mp hq2 with rfl | hq2m
          · exact absurd he2 he
          · exact List.mem_map.mpr ⟨q2, hq2m, he2⟩
        by_cases hq : tableOfQuery q ∈ ex
        · simp only [if_pos hq]
          exact ih _ hm
        · simp only [if_neg hq]
          exact ih _ hm

/-- Rows of a table named by no member of `ex` are untouched. -/
theorem runCleanupLoop_rows_untouched {t : String} {ex : List String}
    (hne : ∀ x ∈ ex, x ≠ t) :
    ∀ (qs : List String) (s : DBState),
      ((runCleanupLoop ex qs s).1).rows t = s.rows t := by
  intro qs
  induction qs with
  | nil => intro s; rfl
  | cons q qs ih =>
      intro s
      simp only [runCleanupLoop]
      by_cases hq : tableOfQuery q ∈ ex
      · simp only [if_pos hq]
        rw [ih]
        simp [deleteAllRows, Ne.symm (hne _ hq)]
      · simp only [if_neg hq]
        exact ih _

/-- Exactly the queries whose (live) table is in `ex` execute. -/
theorem runCleanupLoop_deletes_iff (t : String) (ex : List String) :
    ∀ (qs : List String) (s : DBState),
      (SqlOp.deleteRows t ∈ (runCleanupLoop ex qs s).2 ↔
        t ∈ qs.map tableOfQuery ∧ t ∈ ex) := by
  intro qs
  induction qs with
  | nil => intro s; simp [runCleanupLoop]
  | cons q qs ih =>
      intro s
      simp only [runCleanupLoop]
      by_cases hq : tableOfQuery q ∈ ex
      · simp only [if_pos hq, List.mem_cons, List.map_cons, SqlOp.deleteRows.injEq]
        rw [ih]
        constructor
        · rintro (he | ⟨hm, hex⟩)
          · exact ⟨Or.inl he, he ▸ hq⟩
          · exact ⟨Or.inr hm, hex⟩
        · rintro ⟨he | hm, hex⟩
          · exact Or.inl he
          · exact Or.inr ⟨hm, hex⟩
      · simp only [if_neg hq, List.map_cons, List.mem_cons]
        rw [ih]
        constructor
        · rintro ⟨hm, hex⟩
          exact ⟨Or.inr hm, hex⟩
        · rintro ⟨he | hm, hex⟩
          · exact absurd (he ▸ hex) hq
          · exact ⟨hm, hex⟩

/-- The purge loop parses back exactly the six target tables, in query
order. -/
theorem cleanupOrder_eq : cleanupOrder = targetTables := by decide

/-- Delete statements in a purge run's SQL log come only from the loop;
the surrounding probe and count statements are of other kinds. -/
theorem mem_clean_sql (ex qs : List String) (s : DBState) (t : String) :
    (SqlOp.deleteRows t ∈
      (SqlOp.infoSchemaTables ::
        (ex.map SqlOp.countRows ++ [SqlOp.countRows "users"] ++
         (runCleanupLoop ex qs s).2 ++ ex.map SqlOp.countRows))) ↔
    SqlOp.deleteRows t ∈ (runCleanupLoop ex qs s).2 := by
  simp

/-- In the fixed purge order, every foreign-key child among the six
targets is named by a strictly earlier query than its parent. -/
theorem fk_child_named_earlier :
    ∀ i, i < 6 → ∀ cp ∈ fkEdges, cp.2 = cleanupOrder.getD i "" →
      cp.1 ∈ targetTables → cp.1 ∈ (CLEANUP_QUERIES.take i).map tableOfQuery := by
  decide

/-!
### C1: idempotent provisioning
-/

/-- C1: For every database state, the fixed schema script runs without
error, and re-running it from the resulting state raises no error and is
the identity — in particular the second run performs no destructive
action, changes nothing, and inserts no duplicate of the three seed rows
(the `IF NOT EXISTS` guards and `ON CONFLICT (id) DO NOTHING` inserts
make it a no-op). -/
theorem schema_idempotent (s : DBState) :
    ∃ s', runStmts SCHEMA_STMTS s = .ok s' ∧ runStmts SCHEMA_STMTS s' = .ok s' := by
  obtain ⟨s1, hs1⟩ := creates_total (l := SCHEMA_STMTS.take 15) (by decide) s
  obtain ⟨hle1, hest1⟩ := runStmts_ok hs1
  have hu : "users" ∈ s1.tables := hest1 (.createTable "users" []) (by decide)
  have hnb : "notebooks" ∈ s1.tables :=
    hest1 (.createTable "notebooks" ["users"]) (by decide)
  have hnt : "notes" ∈ s1.tables := hest1 (.createTable "notes" ["notebooks"]) (by decide)
  obtain ⟨s2, h2⟩ := insert_ok hu "default-user" ["demo@notebookai.com", "Demo User"]
  have hle2 := (execStmt_ok h2).1
  obtain ⟨s3, h3⟩ := insert_ok (hle2.2.1 _ hnb) "sample-notebook-1"
    ["Sample Research Notebook",
     "A demo notebook for testing NotebookAI functionality", "default-user"]
  have hle3 := (execStmt_ok h3).1
  obtain ⟨s4, h4⟩ := insert_ok ((dbLe_trans hle2 hle3).2.1 _ hnt) "sample-note-1"
    ["Welcome to NotebookAI",
     "This is a sample note to get you started. Upload documents and start asking questions!",
     "sample-notebook-1", "manual"]
  have hdrop : runStmts (SCHEMA_STMTS.drop 15) s1 = .ok s4 := by
    show runStmts
      [ .insertOnConflict "users" "default-user" ["demo@notebookai.com", "Demo User"],
        .insertOnConflict "notebooks" "sample-notebook-1"
          ["Sample Research Notebook",
           "A demo notebook for testing NotebookAI functionality", "default-user"],
        .insertOnConflict "notes" "sample-note-1"
          ["Welcome to NotebookAI",
           "This is a sample note to get you started. Upload documents and start asking questions!",
           "sample-notebook-1", "manual"] ] s1 = .ok s4
    simp only [runStmts, h2, h3, h4]
  have hfull : runStmts SCHEMA_STMTS s = .ok s4 := by
    rw [← List.take_append_drop 15 SCHEMA_STMTS, runStmts_append, hs1]
    exact hdrop
  exact ⟨s4, hfull, runStmts_stable (runStmts_ok hfull).2⟩

/-- Membership in the live-target list. -/
theorem mem_existingTables {t : String} {tables : List String} :
    t ∈ existingTables tables ↔ t ∈ tables ∧ t ∈ targetTables := by
  simp [existingTables]

/-- Unfolding of a confirmed purge run that passes connection
validation. -/
theorem cleanupMain_yes {answers : List String} {dbu h p d u pw : String}
    {db : DBState} {cp : ConnParams}
    (hc : getConfirmation answers = some true)
    (hcp : (resolveConn dbu h p d u pw).params = some cp) :
    cleanupMain answers dbu h p d u pw db =
      (if existingTables db.tables = [] then
        some ⟨0, [SqlOp.infoSchemaTables], true, true, db⟩
      else
        some ⟨0, SqlOp.infoSchemaTables ::
          ((existingTables db.tables).map SqlOp.countRows ++ [SqlOp.countRows "users"] ++
           (runCleanupLoop (existingTables db.tables) CLEANUP_QUERIES db).2 ++
           (existingTables db.tables).map SqlOp.countRows),
          true, true, (runCleanupLoop (existingTables db.tables) CLEANUP_QUERIES db).1⟩) := by
  simp only [cleanupMain, hc, hcp]

/-!
### C2: a completed confirmed purge empties the live targets, users untouched
-/

/-- C2: For every database state, a purge run confirmed with "yes" that
passes connection validation runs to completion with exit code 0, leaves
zero rows in each of the six target tables that existed in the schema,
and leaves the rows of the `users` table exactly as they were (no
statement touches `users`). -/
theorem purge_empties_targets_preserves_users
    (answers : List String) (dbu h p d u pw : String) (db : DBState)
    (hc : getConfirmation answers = some true)
    (hp : (resolveConn dbu h p d u pw).params.isSome = true) :
    ∃ res, cleanupMain answers dbu h p d u pw db = some res ∧
      (∀ t ∈ targetTables, t ∈ db.tables → res.finalDB.rows t = []) ∧
      res.finalDB.rows "users" = db.rows "users" ∧
      res.exitCode = 0 := by
  rw [Option.isSome_iff_exists] at hp
  obtain ⟨cp, hcp⟩ := hp
  rw [cleanupMain_yes hc hcp]
  by_cases hex : existingTables db.tables = []
  · rw [if_pos hex]
    refine ⟨_, rfl, ?_, rfl, rfl⟩
    intro t htT htd
    exact absurd (mem_existingTables.mpr ⟨htd, htT⟩) (by rw [hex]; simp)
  · rw [if_neg hex]
    refine ⟨_, rfl, ?_, ?_, rfl⟩
    · intro t htT htd
      refine runCleanupLoop_rows_eq_nil (mem_existingTables.mpr ⟨htd, htT⟩)
        CLEANUP_QUERIES db ?_
      rw [show List.map tableOfQuery CLEANUP_QUERIES = targetTables from cleanupOrder_eq]
      exact htT
    · have hne : ∀ x ∈ existingTables db.tables, x ≠ "users" := by
        intro x hx he
        subst he
        have hT := (mem_existingTables.mp hx).2
        revert hT; decide
      exact runCleanupLoop_rows_untouched hne CLEANUP_QUERIES db

/-- C2 witness: a concrete confirmed purge of a fully provisioned-like
state. -/
theorem purge_empties_targets_preserves_users_witness :
    getConfirmation ["yes"] = some true ∧
    (resolveConn "postgresql://u:p@h:5432/db" "" "" "" "" "").params.isSome = true ∧
    ∃ res, cleanupMain ["yes"] "postgresql://u:p@h:5432/db" "" "" "" "" "" dbSeven = some res ∧
      (∀ t ∈ targetTables, t ∈ dbSeven.tables → res.finalDB.rows t = []) ∧
      res.finalDB.rows "users" = dbSeven.rows "users" ∧
      res.exitCode = 0 :=
  ⟨by decide, by decide,
   purge_empties_targets_preserves_users ["yes"] "postgresql://u:p@h:5432/db"
     "" "" "" "" "" dbSeven (by decide) (by decide)⟩

/-!
### C3: answering "no" executes no SQL and exits 0
-/

/-- C3: A purge run whose confirmation answer is "no" (or "n", any
case, surrounding whitespace ignored) executes zero SQL statements,
never opens a database connection, and terminates with exit code 0. -/
theorem cleanup_no_is_clean_exit (a : String) (rest : List String)
    (dbu h p d u pw : String) (db : DBState)
    (hno : pyLower (pyStrip a) = "no" ∨ pyLower (pyStrip a) = "n") :
    cleanupMain (a :: rest) dbu h p d u pw db = some ⟨0, [], false, false, db⟩ := by
  have hg : getConfirmation (a :: rest) = some false := by
    rcases hno with hx | hx <;> simp [getConfirmation, hx]
  simp [cleanupMain, hg]

/-- C3 witness: answering "No". -/
theorem cleanup_no_is_clean_exit_witness :
    (pyLower (pyStrip "No") = "no" ∨ pyLower (pyStrip "No") = "n") ∧
    cleanupMain ["No"] "" "" "" "" "" "" dbUsersOnly = some ⟨0, [], false, false, dbUsersOnly⟩ :=
  ⟨Or.inl (by decide),
   cleanup_no_is_clean_exit "No" [] "" "" "" "" "" "" dbUsersOnly (Or.inl (by decide))⟩

/-!
### C4: a DELETE runs against T iff T is a named target present in the live schema
-/

/-- C4: In a confirmed purge run that passes connection validation, a
DELETE statement executes against table `t` iff `t` is one of the six
tables named by the fixed query list and `t` is present in the live
schema; absent tables are skipped without error. -/
theorem purge_delete_iff (answers : List String) (dbu h p d u pw : String)
    (db : DBState) (t : String)
    (hc : getConfirmation answers = some true)
    (hp : (resolveConn dbu h p d u pw).params.isSome = true) :
    ∃ res, cleanupMain answers dbu h p d u pw db = some res ∧
      (SqlOp.deleteRows t ∈ res.sqlExecuted ↔ t ∈ targetTables ∧ t ∈ db.tables) := by
  rw [Option.isSome_iff_exists] at hp
  obtain ⟨cp, hcp⟩ := hp
  rw [cleanupMain_yes hc hcp]
  by_cases hex : existingTables db.tables = []
  · rw [if_pos hex]
    refine ⟨_, rfl, ?_⟩
    constructor
    · intro hm; simp at hm
    · rintro ⟨htT, htd⟩
      exact absurd (mem_existingTables.mpr ⟨htd, htT⟩) (by rw [hex]; simp)
  · rw [if_neg hex]
    refine ⟨_, rfl, ?_⟩
    rw [mem_clean_sql (existingTables db.tables) CLEANUP_QUERIES db t,
        runCleanupLoop_deletes_iff t (existingTables db.tables) CLEANUP_QUERIES db]
    constructor
    · rintro ⟨hmap, hext⟩
      have hm := mem_existingTables.mp hext
      exact ⟨hm.2, hm.1⟩
    · rintro ⟨htT, htd⟩
      refine ⟨?_, mem_existingTables.mpr ⟨htd, htT⟩⟩
      rw [show List.map tableOfQuery CLEANUP_QUERIES = targetTables from cleanupOrder_eq]
      exact htT

/-- C4 witness: on a state holding only `users`, `notebooks` and
`sessions`, the iff instantiated at a live target. -/
theorem purge_delete_iff_witness :
    getConfirmation ["yes"] = some true ∧
    (resolveConn "postgresql://u:p@h:5432/db" "" "" "" "" "").params.isSome = true ∧
    ∃ res, cleanupMain ["yes"] "postgresql://u:p@h:5432/db" "" "" "" "" "" dbUsersOnly = some res ∧
      (SqlOp.deleteRows "notebooks" ∈ res.sqlExecuted ↔
        "notebooks" ∈ targetTables ∧ "notebooks" ∈ dbUsersOnly.tables) :=
  ⟨by decide, by decide,
   purge_delete_iff ["yes"] "postgresql://u:p@h:5432/db" "" "" "" "" "" dbUsersOnly
     "notebooks" (by decide) (by decide)⟩

/-!
### C5: the fixed purge order is leaf-to-root for the schema's FK graph
-/

/-- C5: For every state and every step `i` of the purge, when the `i`-th
query's table is the parent of a foreign-key edge declared by the
provisioning schema, any live child table of that edge has already been
emptied by the earlier steps (so the parent delete cannot violate a
foreign-key constraint even without cascade rules); moreover, in the
fixed order every child among the six targets is deleted strictly
before its parent. -/
theorem purge_order_leaf_to_root (db : DBState) (i : Nat)
    (hi : i < CLEANUP_QUERIES.length) (c pa : String)
    (hedge : (c, pa) ∈ fkEdges) (hpa : pa = cleanupOrder.getD i "")
    (hc : c ∈ existingTables db.tables) :
    ((runCleanupLoop (existingTables db.tables) (CLEANUP_QUERIES.take i) db).1).rows c = [] ∧
    (∀ cp ∈ fkEdges, cp.1 ∈ cleanupOrder → cp.2 ∈ cleanupOrder →
       cleanupOrder.indexOf cp.1 < cleanupOrder.indexOf cp.2) := by
  constructor
  · have hct : c ∈ targetTables := (mem_existingTables.mp hc).2
    have hmem := fk_child_named_earlier i hi (c, pa) hedge hpa hct
    exact runCleanupLoop_rows_eq_nil hc _ _ hmem
  · decide

/-- C5 witness: deleting `notebooks` (step 4) finds its live child
`chat_history` already empty. -/
theorem purge_order_leaf_to_root_witness :
    (("chat_history", "notebooks") ∈ fkEdges) ∧
    ("notebooks" = cleanupOrder.getD 4 "") ∧
    ("chat_history" ∈ existingTables dbSeven.tables) ∧
    (((runCleanupLoop (existingTables dbSeven.tables)
        (CLEANUP_QUERIES.take 4) dbSeven).1).rows "chat_history" = [] ∧
     (∀ cp ∈ fkEdges, cp.1 ∈ cleanupOrder → cp.2 ∈ cleanupOrder →
        cleanupOrder.indexOf cp.1 < cleanupOrder.indexOf cp.2)) :=
  ⟨by decide, by decide, by decide,
   purge_order_leaf_to_root dbSeven 4 (by decide) "chat_history" "notebooks"
     (by decide) (by decide) (by decide)⟩

/-!
### C10: purge over an empty schema runs no DELETE and exits 0
-/

/-- C10: A confirmed purge run that passes connection validation, on a
state where none of the six target tables exists, executes no DELETE
statement, closes the connection, leaves the state unchanged and
terminates normally with exit code 0. -/
theorem purge_empty_schema_clean (answers : List String) (dbu h p d u pw : String)
    (db : DBState)
    (hc : getConfirmation answers = some true)
    (hp : (resolveConn dbu h p d u pw).params.isSome = true)
    (hnone : ∀ t ∈ targetTables, t ∉ db.tables) :
    ∃ res, cleanupMain answers dbu h p d u pw db = some res ∧
      (∀ t2, SqlOp.deleteRows t2 ∉ res.sqlExecuted) ∧
      res.exitCode = 0 ∧ res.connectionClosed = true ∧ res.finalDB = db := by
  rw [Option.isSome_iff_exists] at hp
  obtain ⟨cp, hcp⟩ := hp
  rw [cleanupMain_yes hc hcp]
  have hex : existingTables db.tables = [] := by
    apply List.eq_nil_iff_forall_not_mem.mpr
    intro x hx
    exact hnone x (mem_existingTables.mp hx).2 (mem_existingTables.mp hx).1
  rw [if_pos hex]
  refine ⟨_, rfl, ?_, rfl, rfl, rfl⟩
  intro t2 hm
  simp at hm

/-- C10 witness: a state holding only the `users` table. -/
theorem purge_empty_schema_clean_witness :
    getConfirmation ["yes"] = some true ∧
    (resolveConn "postgresql://u:p@h:5432/db" "" "" "" "" "").params.isSome = true ∧
    (∀ t ∈ targetTables, t ∉ dbUsersOnly.tables) ∧
    ∃ res, cleanupMain ["yes"] "postgresql://u:p@h:5432/db" "" "" "" "" "" dbUsersOnly = some res ∧
      (∀ t2, SqlOp.deleteRows t2 ∉ res.sqlExecuted) ∧
      res.exitCode = 0 ∧ res.connectionClosed = true ∧ res.finalDB = dbUsersOnly :=
  ⟨by decide, by decide, by decide,
   purge_empty_schema_clean ["yes"] "postgresql://u:p@h:5432/db" "" "" "" "" "" dbUsersOnly
     (by decide) (by decide) (by decide)⟩

/-- Unfolding of a REST setup run that passes the non-empty checks and
URL extraction: the one request is fully determined, and only the
response status picks the branch. -/
theorem setupMain_eq (url key anon dburl : String) (respond : HTTPRequest → Nat × String)
    (hempty : ¬(pyStrip url = "" ∨ pyStrip key = ""))
    {ref : String} (href : extractProjectRef (pyStrip url) = some ref) :
    setupMain url key anon dburl respond =
      (if (respond ⟨"https://" ++ ref ++ ".supabase.co/rest/v1/rpc/exec_sql",
                    "Bearer " ++ pyStrip key, pyStrip key, SCHEMA_STMTS⟩).1 = 200 ∨
          (respond ⟨"https://" ++ ref ++ ".supabase.co/rest/v1/rpc/exec_sql",
                    "Bearer " ++ pyStrip key, pyStrip key, SCHEMA_STMTS⟩).1 = 204 then
        { exitCode := 0,
          request := some ⟨"https://" ++ ref ++ ".supabase.co/rest/v1/rpc/exec_sql",
                           "Bearer " ++ pyStrip key, pyStrip key, SCHEMA_STMTS⟩,
          output := ["Executing database schema...",
                     "✅ Database schema created successfully!",
                     "✅ Sample data inserted!"] }
      else
        { exitCode := 1,
          request := some ⟨"https://" ++ ref ++ ".supabase.co/rest/v1/rpc/exec_sql",
                           "Bearer " ++ pyStrip key, pyStrip key, SCHEMA_STMTS⟩,
          output := ["Executing database schema...",
                     "Error: HTTP " ++ toString (respond
                       ⟨"https://" ++ ref ++ ".supabase.co/rest/v1/rpc/exec_sql",
                        "Bearer " ++ pyStrip key, pyStrip key, SCHEMA_STMTS⟩).1,
                     "Response: " ++ (respond
                       ⟨"https://" ++ ref ++ ".supabase.co/rest/v1/rpc/exec_sql",
                        "Bearer " ++ pyStrip key, pyStrip key, SCHEMA_STMTS⟩).2] }) := by
  simp only [setupMain, if_neg hempty, href]

/-!
### C6: URL validation happens before any HTTP request
-/

/-- C6: When the project-reference extraction (Python
`re.match(r"https://([^.]+)\.supabase\.co", url)`, which anchors only at
the start) fails on the stripped `SUPABASE_URL`, the REST setup exits 1
without sending any HTTP request; when it succeeds, the extracted
reference is exactly the dot-free subdomain segment following
`https://`, and any request sent targets that project. -/
theorem setup_url_extraction (url key anon dburl : String)
    (respond : HTTPRequest → Nat × String) :
    (extractProjectRef (pyStrip url) = none →
       (setupMain url key anon dburl respond).exitCode = 1 ∧
       (setupMain url key anon dburl respond).request = none) ∧
    (∀ ref, extractProjectRef (pyStrip url) = some ref →
       ref = String.mk (((pyStrip url).toList.drop 8).takeWhile (fun c => c ≠ '.')) ∧
       ∀ req, (setupMain url key anon dburl respond).request = some req →
         req.url = "https://" ++ ref ++ ".supabase.co/rest/v1/rpc/exec_sql") := by
  constructor
  · intro hnone
    by_cases hempty : pyStrip url = "" ∨ pyStrip key = ""
    · simp only [setupMain, if_pos hempty]
      refine ⟨?_, ?_⟩ <;> trivial
    · simp only [setupMain, if_neg hempty, hnone]
      refine ⟨?_, ?_⟩ <;> trivial
  · intro ref href
    constructor
    · have href2 := href
      simp only [extractProjectRef] at href2
      split at href2
      · split at href2
        · exact absurd href2 (by simp)
        · split at href2
          · injection href2 with he
            exact he.symm
          · exact absurd href2 (by simp)
      · exact absurd href2 (by simp)
    · intro req hreq
      by_cases hempty : pyStrip url = "" ∨ pyStrip key = ""
      · rw [show (setupMain url key anon dburl respond).request = none from by
            simp only [setupMain, if_pos hempty]] at hreq
        exact absurd hreq (by simp)
      · rw [setupMain_eq url key anon dburl respond hempty href] at hreq
        split at hreq <;>
          · simp only [Option.some.injEq] at hreq
            rw [← hreq]

/-- C6 witness: a well-formed URL and the request it induces. -/
theorem setup_url_extraction_witness :
    extractProjectRef (pyStrip "https://abc.supabase.co") = some "abc" ∧
    ("abc" = String.mk
        (((pyStrip "https://abc.supabase.co").toList.drop 8).takeWhile (fun c => c ≠ '.')) ∧
     ∀ req, (setupMain "https://abc.supabase.co" "k" "" ""
         (fun _ => (200, ""))).request = some req →
       req.url = "https://" ++ "abc" ++ ".supabase.co/rest/v1/rpc/exec_sql") :=
  ⟨by decide,
   (setup_url_extraction "https://abc.supabase.co" "k" "" ""
      (fun _ => (200, ""))).2 "abc" (by decide)⟩

/-!
### C7: connection resolution — string as-is, defaults, mandatory password
-/

/-- C7: When a non-empty connection string is entered it is passed to
the connection as-is and no component prompt occurs (one prompt in
total); when it is empty, all five components are prompted (six prompts)
and each omitted one falls back to its default — port `5432`, database
`postgres`, user `postgres` — except the password: when blank the
process exits with code 1 before any connection attempt. -/
theorem connection_resolution (dbu h p d u pw : String) (db : DBState) :
    (pyStrip dbu ≠ "" →
       resolveConn dbu h p d u pw = ⟨some (.url (pyStrip dbu)), 1⟩) ∧
    (pyStrip dbu = "" →
       (resolveConn dbu h p d u pw).promptCount = 6 ∧
       (pyStrip pw = "" →
          (resolveConn dbu h p d u pw).params = none ∧
          (setupSqlMain dbu h p d u pw db).exitCode = 1 ∧
          (setupSqlMain dbu h p d u pw db).connected = false) ∧
       (pyStrip pw ≠ "" →
          (resolveConn dbu h p d u pw).params =
            some (.components (pyStrip h)
              (if pyStrip p = "" then "5432" else pyStrip p)
              (if pyStrip d = "" then "postgres" else pyStrip d)
              (if pyStrip u = "" then "postgres" else pyStrip u)
              (pyStrip pw)))) := by
  by_cases hdb : pyStrip dbu = ""
  · refine ⟨fun hne => absurd hdb hne, fun _ => ?_⟩
    by_cases hpw : pyStrip pw = ""
    · have hr : resolveConn dbu h p d u pw = ⟨none, 6⟩ := by
        simp [resolveConn, hdb, hpw]
      refine ⟨by rw [hr], fun _ => ⟨by rw [hr], ?_, ?_⟩, fun hne => absurd hpw hne⟩ <;>
        simp [setupSqlMain, hr]
    · have hr : resolveConn dbu h p d u pw =
          ⟨some (.components (pyStrip h)
            (if pyStrip p = "" then "5432" else pyStrip p)
            (if pyStrip d = "" then "postgres" else pyStrip d)
            (if pyStrip u = "" then "postgres" else pyStrip u)
            (pyStrip pw)), 6⟩ := by
        simp [resolveConn, hdb, hpw]
      exact ⟨by rw [hr], fun hx => absurd hx hpw, fun _ => by rw [hr]⟩
  · exact ⟨fun _ => by simp [resolveConn, hdb], fun he => absurd he hdb⟩

/-- C7 witness: empty connection string and blank password. -/
theorem connection_resolution_witness :
    pyStrip "" = "" ∧ pyStrip "  " = "" ∧
    (resolveConn "" "myhost" "" "" "" "  ").promptCount = 6 ∧
    ((resolveConn "" "myhost" "" "" "" "  ").params = none ∧
     (setupSqlMain "" "myhost" "" "" "" "  " dbUsersOnly).exitCode = 1 ∧
     (setupSqlMain "" "myhost" "" "" "" "  " dbUsersOnly).connected = false) := by
  have hx := (connection_resolution "" "myhost" "" "" "" "  " dbUsersOnly).2 (by decide)
  exact ⟨by decide, by decide, hx.1, hx.2.1 (by decide)⟩

/-!
### C8: HTTP 200/204 is success, anything else fatal with verbatim body
-/

/-- C8: In a REST setup run that reaches the SQL-execution request, a
response status of 200 or 204 leads to exit code 0, and any other
status leads to exit code 1 with the response body printed verbatim. -/
theorem setup_http_status (url key anon dburl : String) (status : Nat) (body : String)
    (ref : String)
    (hempty : ¬(pyStrip url = "" ∨ pyStrip key = ""))
    (href : extractProjectRef (pyStrip url) = some ref) :
    ((setupMain url key anon dburl (fun _ => (status, body))).request.isSome = true) ∧
    ((status = 200 ∨ status = 204) →
       (setupMain url key anon dburl (fun _ => (status, body))).exitCode = 0) ∧
    (¬(status = 200 ∨ status = 204) →
       (setupMain url key anon dburl (fun _ => (status, body))).exitCode = 1 ∧
       ("Response: " ++ body) ∈ (setupMain url key anon dburl (fun _ => (status, body))).output) := by
  rw [setupMain_eq url key anon dburl (fun _ => (status, body)) hempty href]
  refine ⟨?_, fun hs => ?_, fun hs => ?_⟩
  · split <;> rfl
  · split
    · rfl
    · next hcond => exact absurd hs hcond
  · split
    · next hcond => exact absurd hcond hs
    · exact ⟨rfl, by simp⟩

/-- C8 witness: status 500 is fatal and the body is echoed. -/
theorem setup_http_status_witness :
    ¬(pyStrip "https://abc.supabase.co" = "" ∨ pyStrip "k" = "") ∧
    extractProjectRef (pyStrip "https://abc.supabase.co") = some "abc" ∧
    ¬((500 : Nat) = 200 ∨ (500 : Nat) = 204) ∧
    ((setupMain "https://abc.supabase.co" "k" "" ""
        (fun _ => (500, "boom"))).exitCode = 1 ∧
     ("Response: " ++ "boom") ∈ (setupMain "https://abc.supabase.co" "k" "" ""
        (fun _ => (500, "boom"))).output) := by
  have hx := setup_http_status "https://abc.supabase.co" "k" "" "" 500 "boom" "abc"
    (by decide) (by decide)
  exact ⟨by decide, by decide, by decide, hx.2.2 (by decide)⟩

/-!
### C9: the unused inputs do not influence the run
-/

/-- C9: Two REST setup runs differing only in the prompted-but-unused
`SUPABASE_ANON_KEY` and `DATABASE_URL` inputs produce identical results:
same HTTP request, same schema-execution output, same exit code. -/
theorem setup_unused_inputs_noninterference
    (supabaseUrl serviceKey anonKey1 anonKey2 dbUrl1 dbUrl2 : String)
    (respond : HTTPRequest → Nat × String) :
    setupMain supabaseUrl serviceKey anonKey1 dbUrl1 respond =
      setupMain supabaseUrl serviceKey anonKey2 dbUrl2 respond := rfl

end NotebookAI
